import Mathlib

/-!
Verification development for a multi-service loan-origination chatbot.

The system consists of a master orchestrator (a LangGraph agent loop over
four HTTP "capability" tools), four agent services (sales, KYC verification,
underwriting, sanction generation) and three mock data services (offer mart,
credit bureau, CRM).  The definitions below are a shallow embedding of the
Python sources:

  * machine integers of the services are modelled as `Int` (pydantic `int`
    accepts arbitrary, possibly negative, Python integers);
  * the float interest rate is carried as `Rat`; the one floating-point
    computation (the EMI affordability comparison in the underwriting
    service) is abstracted as an explicit boolean argument `emiOk`, since
    no property below depends on its value;
  * HTTP failure is `Except` with the numeric status code or an error
    string; LLM calls and tool invocations are oracles passed as function
    arguments.
-/

/-- One record of `db/synthetic_data.json`, as consumed by the mock
services (`offer_mart` reads `pre_approved_limit` and `interest_options`,
`credit_bureau` reads `credit_score`; the CRM-only fields are not needed
by any property here). -/
structure CustomerRec where
  cust_id : String
  pre_approved_limit : Int
  interest_options : List String
  credit_score : Int
deriving DecidableEq

/-- `GET /credit_score?cust_id=` of the mock credit bureau
(`mock_services/credit_bureau/main.py`, `get_credit_score`): linear scan of
the customer list; 404 when the id is unknown. -/
def get_credit_score (customers : List CustomerRec) (cust_id : String) : Except Nat Int :=
  match customers.find? (fun c => c.cust_id == cust_id) with
  | some c => Except.ok c.credit_score
  | none => Except.error 404

/-- `GET /offers?cust_id=` of the mock offer mart
(`mock_services/offer_mart/main.py`, `get_offers`): returns the
pre-approved limit and interest options; 404 when the id is unknown. -/
def get_offers (customers : List CustomerRec) (cust_id : String) :
    Except Nat (Int × List String) :=
  match customers.find? (fun c => c.cust_id == cust_id) with
  | some c => Except.ok (c.pre_approved_limit, c.interest_options)
  | none => Except.error 404

/-- Request body of `POST /underwrite`
(`agents/underwriting_agent/main.py`, `UnderwriteRequest`). -/
structure UnderwriteRequest where
  customer_id : String
  requested_loan_amount : Int
  pre_approved_limit : Int
  monthly_salary : Int
  interest_rate : Rat
  loan_tenure_months : Int
deriving DecidableEq

/-- The `{"status": ..., "reason": ...}` dictionaries returned by the
underwriting service. -/
structure Decision where
  status : String
  reason : String
deriving DecidableEq

/-- The f-string reason of the `p > 2 * limit` rejection branch. -/
def reason2x (p limit : Int) : String :=
  "Requested amount (₹" ++ toString p ++ ") is more than 2x your pre-approved limit (₹"
    ++ toString limit ++ ")."

/-- Core decision logic of `POST /underwrite`
(`agents/underwriting_agent/main.py`, `underwrite`), after the credit
score has been fetched.  `emiOk` stands for the floating-point test
`calculate_emi(p, interest_rate, tenure) <= salary * 0.50` of Rule 3;
no claim below depends on its outcome. -/
def underwrite (credit_score : Int) (req : UnderwriteRequest) (emiOk : Bool) : Decision :=
  if credit_score < 700 then
    { status := "rejected", reason := "Credit score is below the 700 minimum." }
  else
    let p := req.requested_loan_amount
    let limit := req.pre_approved_limit
    let salary := req.monthly_salary
    if p ≤ limit then
      { status := "approved", reason := "Amount is within pre-approved limit." }
    else if p > 2 * limit then
      { status := "rejected", reason := reason2x p limit }
    else if limit < p ∧ p ≤ 2 * limit then
      if salary ≤ 0 then
        { status := "rejected", reason := "Salary verification is required for this amount." }
      else if emiOk then
        { status := "approved", reason := "Approved based on income verification." }
      else
        { status := "rejected", reason := "Your EMI would exceed 50% of your monthly salary." }
    else
      { status := "rejected", reason := "Invalid loan parameters." }

/-- The `/underwrite` endpoint including the credit-bureau call: a bureau
failure (404 or connection error) is converted into HTTP 503; otherwise
the decision logic runs on the fetched score. -/
def underwriteEndpoint (customers : List CustomerRec) (req : UnderwriteRequest)
    (emiOk : Bool) : Except Nat Decision :=
  match get_credit_score customers req.customer_id with
  | Except.error _ => Except.error 503
  | Except.ok score => Except.ok (underwrite score req emiOk)

example :
    underwrite 750 ⟨"101", 50000, 20000, 0, (17 : Rat)/2, 36⟩ true
      = { status := "rejected", reason := reason2x 50000 20000 } := by decide

example :
    underwrite 750 ⟨"101", 30000, 20000, 0, (17 : Rat)/2, 36⟩ true
      = { status := "rejected", reason := "Salary verification is required for this amount." } := by
  decide

example :
    underwrite 750 ⟨"101", -15, -10, 0, (17 : Rat)/2, 36⟩ true
      = { status := "approved", reason := "Amount is within pre-approved limit." } := by decide

/-! ## Sales agent (`agents/sales_agent/main.py`) -/

/-- Response model of `POST /sales` (`SalesResponse`). -/
structure SalesResponse where
  agent : String
  message : String
  pre_approved_limit : Option Int
  interest_options : Option (List String)
deriving DecidableEq

/-- Body of `handle_sales`: on a successful offer-mart lookup it forwards
the offer; on *any* lookup failure — connection error or an HTTP error
status such as the 404 for an unknown customer — it falls back to a
generic offer (limit 25000, rate 12.5%), still as a 200 success. -/
def handle_sales (customer_id : String) (offerResult : Except Nat (Int × List String)) :
    SalesResponse :=
  match offerResult with
  | Except.ok offer =>
      { agent := "Sales Agent"
        message := "Found offer for " ++ customer_id
        pre_approved_limit := some offer.1
        interest_options := some offer.2 }
  | Except.error _ =>
      { agent := "Sales Agent"
        message := "No specific offer found, giving generic one."
        pre_approved_limit := some 25000
        interest_options := some ["12.5%"] }

/-- The `/sales` endpoint composed with the offer-mart lookup it calls. -/
def salesEndpoint (customers : List CustomerRec) (customer_id : String) : SalesResponse :=
  handle_sales customer_id (get_offers customers customer_id)

/-! ## Sanction generator (`agents/sanction_generator/main.py`)

For the claims below only the pydantic request validation matters: a
`POST /sanction` body is accepted only if every required field of
`SanctionRequest` is present (none of its fields has a default, so all
five are required); a missing field is rejected by FastAPI with a 422
validation error before the endpoint body runs. -/

/-- The field names of `SanctionRequest`, all required (no defaults). -/
def sanctionRequestRequiredFields : List String :=
  ["customer_id", "loan_id", "loan_amount", "interest_rate", "tenure_months"]

/-- The keys of the JSON payload built by the orchestrator's
`tool_generate_sanction` (`master_agent/main.py`). -/
def toolGenerateSanctionPayloadKeys : List String :=
  ["customer_id", "loan_amount", "interest_rate", "tenure_months"]

/-- Pydantic model validation restricted to required-field presence:
a request body (given by its set of keys) passes iff every required
field is among the provided keys. -/
def validateRequiredFields (required provided : List String) : Bool :=
  required.all (fun f => provided.contains f)

/-! ## Master agent (`master_agent/main.py`)

The orchestrator is a LangGraph state graph with two nodes, `agent`
(`call_model`) and `tools` (`call_tool`), entry point `agent`, a
conditional edge `agent → tools | END` (`should_continue`) and an edge
`tools → agent`.  The LLM is an external oracle; tool invocation is an
external oracle.  The graph runtime bounds the number of executed node
steps by its recursion limit (LangGraph default 25) and signals
exhaustion by raising `GraphRecursionError`, modelled as the error token
below. -/

/-- One entry of an `AIMessage.tool_calls` list (name and call id; the
concrete arguments do not matter for any property below). -/
structure ToolCall where
  name : String
  id : String
deriving DecidableEq

/-- LangChain message variants used by the orchestrator. -/
inductive Msg where
  | human (content : String)
  | ai (content : String) (tool_calls : List ToolCall)
  | toolResult (content : String) (tool_call_id : String)
deriving DecidableEq

/-- The names of the four registered tools (the `tools` list). -/
def toolNames : List String :=
  ["tool_get_sales_offer", "tool_verify_kyc", "tool_run_underwriting",
   "tool_generate_sanction"]

/-- The `agent` node, `call_model`: empty history returns a canned error
message; otherwise the LLM is called with tools bound (`withTools`
oracle); if that raises, it is retried once without tools (`plain`
oracle); if the retry also raises, a fixed apologetic `AIMessage` with no
tool calls is returned.  The function is total: no failure escapes. -/
def call_model (messages : List Msg) (withTools plain : Except String Msg) : List Msg :=
  if messages.isEmpty then
    [Msg.ai "I encountered an error processing your request. Please try again." []]
  else
    match withTools with
    | Except.ok response => [response]
    | Except.error _ =>
        match plain with
        | Except.ok response => [response]
        | Except.error _ =>
            [Msg.ai "I'm having trouble processing your request right now. Please try again." []]

/-- Execution of a single tool call inside `call_tool`: an unknown name
yields a `ToolMessage` whose content is an error string; a known name is
invoked through the oracle and an invocation failure likewise becomes an
error-content `ToolMessage`. -/
def runToolCall (invoke : ToolCall → Except String String) (tc : ToolCall) : Msg :=
  if toolNames.contains tc.name then
    match invoke tc with
    | Except.ok result => Msg.toolResult result tc.id
    | Except.error e => Msg.toolResult ("Error: " ++ e) tc.id
  else
    Msg.toolResult ("Error: Unknown tool " ++ tc.name) tc.id

/-- The `tools` node, `call_tool`: if the last message is not an
`AIMessage` with a nonempty `tool_calls` list it appends nothing;
otherwise it executes every requested call in order.  Total: every
failure is folded into a message. -/
def call_tool (invoke : ToolCall → Except String String) (messages : List Msg) : List Msg :=
  match messages.getLast? with
  | some (Msg.ai _ tool_calls) =>
      if tool_calls.isEmpty then [] else tool_calls.map (runToolCall invoke)
  | _ => []

/-- Where the conditional edge out of the `agent` node leads. -/
inductive NextNode where
  | tools
  | finish
deriving DecidableEq

/-- `should_continue`: go to the `tools` node iff the last message is an
`AIMessage` with a nonempty `tool_calls` list; otherwise END. -/
def should_continue (messages : List Msg) : NextNode :=
  match messages.getLast? with
  | some (Msg.ai _ (_ :: _)) => NextNode.tools
  | _ => NextNode.finish

/-- The two graph nodes. -/
inductive Node where
  | agent
  | tools
deriving DecidableEq

/-- The fixed edge `workflow.add_edge("tools", "agent")`. -/
def edgeAfterTools : Node := Node.agent

/-- The graph runtime's step budget per invocation: LangGraph's default
`recursion_limit`; the source configures no other value. -/
def recursionLimitDefault : Nat := 25

/-- The compiled graph's execution loop (`app_graph.ainvoke`): starting
at the entry node with the accumulated message state, alternate node
executions along the configured edges until `should_continue` yields END;
when the step budget is exhausted the runtime raises
`GraphRecursionError` (modelled as the error token of the same name).
The LLM oracles may inspect the current message state. -/
def runGraph (withTools plain : List Msg → Except String Msg)
    (invoke : ToolCall → Except String String) :
    Nat → List Msg → Node → Except String (List Msg)
  | 0, _, _ => Except.error "GraphRecursionError"
  | Nat.succ fuel, messages, Node.agent =>
      let newMessages := messages ++ call_model messages (withTools messages) (plain messages)
      match should_continue newMessages with
      | NextNode.tools => runGraph withTools plain invoke fuel newMessages Node.tools
      | NextNode.finish => Except.ok newMessages
  | Nat.succ fuel, messages, Node.tools =>
      runGraph withTools plain invoke fuel (messages ++ call_tool invoke messages) Node.agent

/-- Reply extraction in `chat`: the content of the last response message
(`response["messages"][-1].content`, already a string in this model). -/
def extractReply (messages : List Msg) : Option String :=
  match messages.getLast? with
  | some (Msg.human c) => some c
  | some (Msg.ai c _) => some c
  | some (Msg.toolResult c _) => some c
  | none => none

/-- What `POST /chat` hands back to its caller: either a 200 JSON body
`{"reply": ...}` or a raised `HTTPException(status, detail)`. -/
inductive ChatOutcome where
  | reply (text : String)
  | httpError (status : Nat) (detail : String)
deriving DecidableEq

/-- A Python exception reaching the `except` clauses of `chat`:
an `AssertionError` or any other exception, with its `str(e)` text. -/
inductive PyError where
  | assertionError (msg : String)
  | otherError (msg : String)
deriving DecidableEq

/-- The exception handling at the bottom of `chat`: an `AssertionError`
auto-resets the conversation and returns a fixed plain reply (HTTP 200);
any other exception is re-surfaced as
`HTTPException(500, "An error occurred: " + str(e))`. -/
def chatHandleFailure (e : PyError) : ChatOutcome :=
  match e with
  | PyError.assertionError _ =>
      ChatOutcome.reply "A small hiccup occurred. Please send your last message again to continue."
  | PyError.otherError m =>
      ChatOutcome.httpError 500 ("An error occurred: " ++ m)

/-- The body of `POST /chat` for one turn, under the conversation lock:
append the incoming user text to the stored history, invoke the graph
from the `agent` entry node, and either extract the final reply or fold
the raised exception through `chatHandleFailure`.  An empty response is
the `ValueError("No response from LangGraph")` path, which the generic
handler turns into a 500.  Graph-runtime exhaustion
(`GraphRecursionError`) is not an `AssertionError`, so it reaches the
generic handler as well. -/
def chat (withTools plain : List Msg → Except String Msg)
    (invoke : ToolCall → Except String String)
    (history : List Msg) (message : String) : ChatOutcome :=
  let state := history ++ [Msg.human message]
  match runGraph withTools plain invoke recursionLimitDefault state Node.agent with
  | Except.ok out =>
      match extractReply out with
      | some r => ChatOutcome.reply r
      | none => chatHandleFailure (PyError.otherError "No response from LangGraph")
  | Except.error e => chatHandleFailure (PyError.otherError e)

/-! ## Conversation reset (`master_agent/main.py`, `reset_conversation`)

The `MemorySaver` checkpoint store is modelled as an association list
from thread id (the customer id) to that conversation's stored state;
Python dict keys are unique, and `del storage[key]` is deletion of the
key, embedded as a filter. -/

/-- Whether the checkpoint store holds state for a customer
(`customer_id in memory_saver.storage`). -/
def hasKey (storage : List (String × List Msg)) (customer_id : String) : Bool :=
  storage.any (fun kv => kv.1 == customer_id)

/-- The JSON body and status code returned by `GET /reset/{customer_id}`. -/
structure ResetResponse where
  statusCode : Nat
  message : String
deriving DecidableEq

/-- `GET /reset/{customer_id}`: if the store holds state for the
customer, delete it and report that the conversation was reset;
otherwise leave the store unchanged and report that no active
conversation was found.  Both branches return HTTP 200. -/
def reset_conversation (storage : List (String × List Msg)) (customer_id : String) :
    List (String × List Msg) × ResetResponse :=
  if hasKey storage customer_id then
    (storage.filter (fun kv => kv.1 != customer_id),
     { statusCode := 200, message := "Conversation reset for customer " ++ customer_id })
  else
    (storage,
     { statusCode := 200, message := "No active conversation found for customer " ++ customer_id })

/-! # Theorems -/

/-! ## Shared helper lemmas -/

/-- A list with an element appended on the right is nonempty. -/
theorem append_singleton_ne_nil (l : List Msg) (m : Msg) : l ++ [m] ≠ [] := by
  simp

/-- Deleting a key from the checkpoint store really removes every entry
under that key. -/
theorem hasKey_filter_self (storage : List (String × List Msg)) (cid : String) :
    hasKey (storage.filter (fun kv => kv.1 != cid)) cid = false := by
  simp only [hasKey, List.any_eq_false, List.mem_filter]
  rintro x ⟨_, hne⟩
  simp_all [bne]

/-- If the decision oracle always returns a tool-calling message, the
graph loop never reaches END and exhausts any step budget with a
`GraphRecursionError`, from either node and any nonempty message state. -/
theorem runGraph_toolLoop (withTools plain : List Msg → Except String Msg)
    (invoke : ToolCall → Except String String)
    (h : ∀ ms, ∃ c tc tcs, withTools ms = Except.ok (Msg.ai c (tc :: tcs))) :
    ∀ (fuel : Nat) (messages : List Msg), messages ≠ [] → ∀ node,
      runGraph withTools plain invoke fuel messages node =
        Except.error "GraphRecursionError" := by
  intro fuel
  induction fuel with
  | zero => intro messages _ node; rfl
  | succ fuel ih =>
      intro messages hne node
      cases node with
      | agent =>
          obtain ⟨c, tc, tcs, hw⟩ := h messages
          have hempty : messages.isEmpty = false := by
            simpa [List.isEmpty_iff] using hne
          have hmodel :
              call_model messages (withTools messages) (plain messages)
                = [Msg.ai c (tc :: tcs)] := by
            simp [call_model, hempty, hw]
          have hcont :
              should_continue (messages ++ [Msg.ai c (tc :: tcs)]) = NextNode.tools := by
            simp [should_continue, List.getLast?_concat]
          simp only [runGraph, hmodel, hcont]
          exact ih (messages ++ [Msg.ai c (tc :: tcs)]) (by simp) Node.tools
      | tools =>
          simp only [runGraph]
          exact ih (messages ++ call_tool invoke messages)
            (by cases messages with
                | nil => exact absurd rfl hne
                | cons a l => simp) Node.agent

/-! ## C1 -/

/-- C1, counterexample: the claim as stated is false.  With a credit
score of 750 (≥ 700) and a request of −15 against a pre-approved limit
of −10 (pydantic `int` fields admit negative values), the requested
amount exceeds twice the limit (−15 > −20) yet the service approves,
because the `p <= limit` check runs before the `p > 2*limit` check. -/
theorem C1_counterexample :
    ((-15 : Int) > 2 * (-10 : Int)) ∧
    get_credit_score [⟨"101", 20000, ["8.5%"], 750⟩] "101" = Except.ok 750 ∧
    underwriteEndpoint [⟨"101", 20000, ["8.5%"], 750⟩]
        ⟨"101", -15, -10, 0, (17 : Rat)/2, 36⟩ true
      = Except.ok { status := "approved", reason := "Amount is within pre-approved limit." } :=
  ⟨by decide, rfl, rfl⟩

/-- C1, amended: for a customer whose credit-bureau score is at least
700, (a) provided the pre-approved limit is nonnegative, a requested
amount above twice the limit is rejected with the 2x-limit reason, and
(b) a requested amount strictly between the limit and twice the limit
with a non-positive supplied salary is rejected with the
salary-verification reason.  (For a negative limit, part (a) fails: the
`p <= limit` check precedes the 2x check, see the counterexample.) -/
theorem C1_amended (customers : List CustomerRec) (req : UnderwriteRequest)
    (emiOk : Bool) (score : Int)
    (hs : get_credit_score customers req.customer_id = Except.ok score)
    (h700 : 700 ≤ score) :
    (0 ≤ req.pre_approved_limit → req.requested_loan_amount > 2 * req.pre_approved_limit →
      underwriteEndpoint customers req emiOk =
        Except.ok { status := "rejected",
                    reason := reason2x req.requested_loan_amount req.pre_approved_limit }) ∧
    (req.pre_approved_limit < req.requested_loan_amount →
      req.requested_loan_amount ≤ 2 * req.pre_approved_limit →
      req.monthly_salary ≤ 0 →
      underwriteEndpoint customers req emiOk =
        Except.ok { status := "rejected",
                    reason := "Salary verification is required for this amount." }) := by
  have hscore : ¬ score < 700 := by omega
  constructor
  · intro hL hp
    have h1 : ¬ req.requested_loan_amount ≤ req.pre_approved_limit := by omega
    simp only [underwriteEndpoint, hs]
    simp only [underwrite, if_neg hscore, if_neg h1, if_pos hp]
  · intro hlt hle hsal
    have h1 : ¬ req.requested_loan_amount ≤ req.pre_approved_limit := by omega
    have h2 : ¬ req.requested_loan_amount > 2 * req.pre_approved_limit := by omega
    simp only [underwriteEndpoint, hs]
    simp only [underwrite, if_neg hscore, if_neg h1, if_neg h2,
      if_pos (And.intro hlt hle), if_pos hsal]

/-- C1, witness: the amended theorem applied to customer 101 (score 750,
limit 20000) requesting 50000 > 2 × 20000: rejected with the 2x reason. -/
theorem C1_witness :
    underwriteEndpoint [⟨"101", 20000, ["8.5%"], 750⟩]
        ⟨"101", 50000, 20000, 0, (17 : Rat)/2, 36⟩ true
      = Except.ok { status := "rejected", reason := reason2x 50000 20000 } :=
  (C1_amended [⟨"101", 20000, ["8.5%"], 750⟩]
      ⟨"101", 50000, 20000, 0, (17 : Rat)/2, 36⟩ true 750 rfl (by decide)).1
    (by decide) (by decide)

/-! ## C2 -/

/-- C2: the spec's `sanction-generate` contract — and the orchestrator's
`tool_generate_sanction` payload — carry exactly customerId, loanAmount,
interestRate and tenureMonths, but the sanction service's
`SanctionRequest` model additionally requires `loan_id` with no default,
so the payload fails pydantic validation (FastAPI rejects it with 422)
instead of being accepted with a filePath result. -/
theorem C2_sanction_payload_rejected :
    validateRequiredFields sanctionRequestRequiredFields toolGenerateSanctionPayloadKeys
      = false ∧
    toolGenerateSanctionPayloadKeys.contains "loan_id" = false ∧
    sanctionRequestRequiredFields.contains "loan_id" = true := by decide

/-! ## C10 -/

/-- C10: whenever the credit bureau reports a score below 700 for the
requesting customer, the underwriting endpoint rejects with exactly
"Credit score is below the 700 minimum.", for every requested amount,
limit, salary, rate, tenure and EMI outcome — in particular even when
the requested amount is within the pre-approved limit. -/
theorem C10_low_score_rejected (customers : List CustomerRec)
    (req : UnderwriteRequest) (emiOk : Bool) (score : Int)
    (hs : get_credit_score customers req.customer_id = Except.ok score)
    (hlow : score < 700) :
    underwriteEndpoint customers req emiOk =
      Except.ok { status := "rejected", reason := "Credit score is below the 700 minimum." } := by
  simp only [underwriteEndpoint, hs, underwrite, if_pos hlow]

/-- C10, witness: customer 102 has score 650; a request of 10000 against
a limit of 15000 (within the limit) is still rejected on credit score. -/
theorem C10_witness :
    underwriteEndpoint [⟨"102", 15000, ["11%"], 650⟩]
        ⟨"102", 10000, 15000, 40000, (11 : Rat), 36⟩ true
      = Except.ok { status := "rejected", reason := "Credit score is below the 700 minimum." } :=
  C10_low_score_rejected [⟨"102", 15000, ["11%"], 650⟩]
    ⟨"102", 10000, 15000, 40000, (11 : Rat), 36⟩ true 650 rfl (by decide)

/-! ## C3 -/

/-- C3, counterexample: the claim as stated is false.  With a decision
oracle that requests a tool call on every step, the iteration bound (the
graph runtime's recursion limit) is indeed hit, but the turn ends in a
raised `HTTPException` with status 500 — an internal failure — not in a
degraded terminal reply returned to the caller. -/
theorem C3_counterexample :
    chat (fun _ => Except.ok (Msg.ai "" [⟨"tool_verify_kyc", "1"⟩]))
        (fun _ => Except.ok (Msg.ai "done" []))
        (fun _ => Except.error "conn") [] "hi"
      = ChatOutcome.httpError 500 ("An error occurred: GraphRecursionError") := by decide

/-- C3, amended: a Decision Function that requests another capability on
every Deciding step is still cut off by the graph runtime's recursion
limit, so every such turn terminates — but it terminates with an HTTP
500 error response carrying the exception text ("An error occurred:
GraphRecursionError"), not with a degraded terminal reply. -/
theorem C3_amended (withTools plain : List Msg → Except String Msg)
    (invoke : ToolCall → Except String String) (history : List Msg) (message : String)
    (h : ∀ ms, ∃ c tc tcs, withTools ms = Except.ok (Msg.ai c (tc :: tcs))) :
    chat withTools plain invoke history message =
      ChatOutcome.httpError 500 ("An error occurred: GraphRecursionError") := by
  have hrg := runGraph_toolLoop withTools plain invoke h recursionLimitDefault
    (history ++ [Msg.human message]) (append_singleton_ne_nil history (Msg.human message))
    Node.agent
  simp [chat, hrg, chatHandleFailure]

/-- C3, witness: the amended theorem at a concrete always-tool-calling
oracle (it keeps requesting the offer lookup) and a concrete turn. -/
theorem C3_witness :
    chat (fun _ => Except.ok (Msg.ai "Fetching your offer." [⟨"tool_get_sales_offer", "call_1"⟩]))
        (fun _ => Except.ok (Msg.ai "Hello." []))
        (fun _ => Except.ok "offer data") [Msg.human "hi"] "hello"
      = ChatOutcome.httpError 500 ("An error occurred: GraphRecursionError") :=
  C3_amended (fun _ => Except.ok (Msg.ai "Fetching your offer." [⟨"tool_get_sales_offer", "call_1"⟩]))
    (fun _ => Except.ok (Msg.ai "Hello." []))
    (fun _ => Except.ok "offer data") [Msg.human "hi"] "hello"
    (fun _ => ⟨"Fetching your offer.", ⟨"tool_get_sales_offer", "call_1"⟩, [], rfl⟩)

/-! ## C5 -/

/-- C5: when the tool-enabled LLM call fails, `call_model` retries
exactly once without tools and returns that result; when the retry also
fails, it returns the single fixed apologetic `AIMessage` — and since
that message carries no tool calls, `should_continue` routes to END, so
the turn terminates.  `call_model` is a total function into message
lists, so no decision-step failure is ever propagated as a raised
fault. -/
theorem C5_decision_step_failure (messages : List Msg) (e1 e2 : String) (r : Msg)
    (h : messages ≠ []) :
    call_model messages (Except.error e1) (Except.ok r) = [r] ∧
    call_model messages (Except.error e1) (Except.error e2) =
      [Msg.ai "I'm having trouble processing your request right now. Please try again." []] ∧
    should_continue (messages ++
        call_model messages (Except.error e1) (Except.error e2)) = NextNode.finish := by
  have hempty : messages.isEmpty = false := by simpa [List.isEmpty_iff] using h
  refine ⟨?_, ?_, ?_⟩
  · simp [call_model, hempty]
  · simp [call_model, hempty]
  · simp [call_model, hempty, should_continue, List.getLast?_concat]

/-- C5, witness: the theorem at a one-message history with both LLM
attempts failing on a rate limit, and a concrete successful retry. -/
theorem C5_witness :
    call_model [Msg.human "hi"] (Except.error "ResourceExhausted")
        (Except.ok (Msg.ai "Hello there." [])) = [Msg.ai "Hello there." []] ∧
    call_model [Msg.human "hi"] (Except.error "ResourceExhausted")
        (Except.error "ResourceExhausted") =
      [Msg.ai "I'm having trouble processing your request right now. Please try again." []] ∧
    should_continue ([Msg.human "hi"] ++
        call_model [Msg.human "hi"] (Except.error "ResourceExhausted")
          (Except.error "ResourceExhausted")) = NextNode.finish :=
  C5_decision_step_failure [Msg.human "hi"] "ResourceExhausted" "ResourceExhausted"
    (Msg.ai "Hello there." []) (by decide)

/-! ## C6 -/

/-- C6: in the Turn Executor (`call_tool`), a request naming an unknown
capability produces a `ToolMessage` whose content is the error
observation "Error: Unknown tool ..." (never a thrown fault), and an
invocation failure of a known capability produces a `ToolMessage` with
content "Error: ..."; every requested call yields exactly one such
observation, appended in order, and the graph's fixed edge routes from
the `tools` node straight back to the `agent` (Deciding) node, so the
loop continues in both cases. -/
theorem C6_tool_failure_observed (invoke : ToolCall → Except String String)
    (withTools plain : List Msg → Except String Msg) (fuel : Nat)
    (messages : List Msg) (c : String) (tcs : List ToolCall)
    (unknownName id1 knownName id2 e : String)
    (hlast : messages.getLast? = some (Msg.ai c tcs)) (hne : tcs ≠ [])
    (hunknown : toolNames.contains unknownName = false)
    (hknown : toolNames.contains knownName = true)
    (hfail : invoke ⟨knownName, id2⟩ = Except.error e) :
    call_tool invoke messages = tcs.map (runToolCall invoke) ∧
    runToolCall invoke ⟨unknownName, id1⟩ =
      Msg.toolResult ("Error: Unknown tool " ++ unknownName) id1 ∧
    runToolCall invoke ⟨knownName, id2⟩ = Msg.toolResult ("Error: " ++ e) id2 ∧
    edgeAfterTools = Node.agent ∧
    runGraph withTools plain invoke (fuel + 1) messages Node.tools =
      runGraph withTools plain invoke fuel (messages ++ call_tool invoke messages)
        Node.agent := by
  have hempty : tcs.isEmpty = false := by simpa [List.isEmpty_iff] using hne
  have hu : unknownName ∉ toolNames := by simpa using hunknown
  have hk : knownName ∈ toolNames := by simpa using hknown
  refine ⟨?_, ?_, ?_, rfl, rfl⟩
  · simp [call_tool, hlast, hempty]
  · simp [runToolCall, hu]
  · simp [runToolCall, hk, hfail]

/-- C6, witness: a turn whose last decision requests one unknown tool
and one known tool whose downstream call fails; both become error
observations and the loop steps back to the agent node. -/
theorem C6_witness :
    call_tool (fun _ => Except.error "Connection refused")
        [Msg.human "hi", Msg.ai "" [⟨"bad_tool", "1"⟩, ⟨"tool_verify_kyc", "2"⟩]] =
      [⟨"bad_tool", "1"⟩, ⟨"tool_verify_kyc", "2"⟩].map
        (runToolCall (fun _ => Except.error "Connection refused")) ∧
    runToolCall (fun _ => Except.error "Connection refused") ⟨"bad_tool", "1"⟩ =
      Msg.toolResult ("Error: Unknown tool " ++ "bad_tool") "1" ∧
    runToolCall (fun _ => Except.error "Connection refused") ⟨"tool_verify_kyc", "2"⟩ =
      Msg.toolResult ("Error: " ++ "Connection refused") "2" ∧
    edgeAfterTools = Node.agent ∧
    runGraph (fun _ => Except.ok (Msg.ai "x" [])) (fun _ => Except.ok (Msg.ai "x" []))
        (fun _ => Except.error "Connection refused") (3 + 1)
        [Msg.human "hi", Msg.ai "" [⟨"bad_tool", "1"⟩, ⟨"tool_verify_kyc", "2"⟩]] Node.tools =
      runGraph (fun _ => Except.ok (Msg.ai "x" [])) (fun _ => Except.ok (Msg.ai "x" []))
        (fun _ => Except.error "Connection refused") 3
        ([Msg.human "hi", Msg.ai "" [⟨"bad_tool", "1"⟩, ⟨"tool_verify_kyc", "2"⟩]] ++
          call_tool (fun _ => Except.error "Connection refused")
            [Msg.human "hi", Msg.ai "" [⟨"bad_tool", "1"⟩, ⟨"tool_verify_kyc", "2"⟩]])
        Node.agent :=
  C6_tool_failure_observed (fun _ => Except.error "Connection refused")
    (fun _ => Except.ok (Msg.ai "x" [])) (fun _ => Except.ok (Msg.ai "x" [])) 3
    [Msg.human "hi", Msg.ai "" [⟨"bad_tool", "1"⟩, ⟨"tool_verify_kyc", "2"⟩]]
    "" [⟨"bad_tool", "1"⟩, ⟨"tool_verify_kyc", "2"⟩]
    "bad_tool" "1" "tool_verify_kyc" "2" "Connection refused"
    rfl (by decide) (by decide) (by decide) rfl

/-! ## C7 -/

/-- C7, counterexample: the claim as stated is false.  The generic
failure path of `/chat` raises `HTTPException(500, "An error occurred: "
+ str(e))`, so the raw exception text — here one embedding a downstream
service URL — is returned verbatim in the response detail, and the
detail varies with the exception text. -/
theorem C7_counterexample :
    chatHandleFailure (PyError.otherError
        "All connection attempts failed for url http://127.0.0.1:8003/underwrite") =
      ChatOutcome.httpError 500
        ("An error occurred: All connection attempts failed for url http://127.0.0.1:8003/underwrite") ∧
    chatHandleFailure (PyError.otherError
        "All connection attempts failed for url http://127.0.0.1:8003/underwrite") ≠
      chatHandleFailure (PyError.otherError "x") := by decide

/-- C7, amended: only the `AssertionError` path returns a fixed
plain-language reply; every other failure of the `/chat` turn is
surfaced as HTTP 500 whose detail is the string "An error occurred: "
followed by the raw exception text (which may include downstream URLs
and other internal detail). -/
theorem C7_amended (m : String) :
    chatHandleFailure (PyError.assertionError m) =
      ChatOutcome.reply "A small hiccup occurred. Please send your last message again to continue." ∧
    chatHandleFailure (PyError.otherError m) =
      ChatOutcome.httpError 500 ("An error occurred: " ++ m) :=
  ⟨rfl, rfl⟩

/-! ## C8 -/

/-- C8, counterexample: the claim as stated is false.  For a customer id
unknown to the offer mart the lookup does return 404, but the sales
capability swallows it and answers with a 200 success carrying a generic
pre-approved limit of 25000 — a success payload, not a not-found
failure. -/
theorem C8_counterexample :
    get_offers [] "999" = Except.error 404 ∧
    salesEndpoint [] "999" =
      { agent := "Sales Agent", message := "No specific offer found, giving generic one.",
        pre_approved_limit := some 25000, interest_options := some ["12.5%"] } :=
  ⟨rfl, rfl⟩

/-- C8, amended: whenever the offer-mart lookup fails with 404 (unknown
customer), the sales capability returns a 200 success response with the
generic fallback offer (limit 25000, interest options ["12.5%"]); no
not-found error reaches the orchestrator from this capability. -/
theorem C8_amended (customers : List CustomerRec) (customer_id : String)
    (h : get_offers customers customer_id = Except.error 404) :
    salesEndpoint customers customer_id =
      { agent := "Sales Agent", message := "No specific offer found, giving generic one.",
        pre_approved_limit := some 25000, interest_options := some ["12.5%"] } := by
  simp [salesEndpoint, h, handle_sales]

/-- C8, witness: a nonempty offer-mart database that does not contain
customer "999"; the lookup 404s and the sales reply is the generic
success offer. -/
theorem C8_witness :
    salesEndpoint [⟨"101", 20000, ["8.5%"], 750⟩] "999" =
      { agent := "Sales Agent", message := "No specific offer found, giving generic one.",
        pre_approved_limit := some 25000, interest_options := some ["12.5%"] } :=
  C8_amended [⟨"101", 20000, ["8.5%"], 750⟩] "999" rfl

/-! ## C9 -/

/-- C9: `GET /reset/{customerId}` returns HTTP 200 both when stored
state exists and when none does; the two cases differ only in the
returned message; after a reset the customer has no stored state; and a
second reset immediately after also returns HTTP 200 (with the
nothing-to-clear message) and leaves the store unchanged — reset is
idempotent and never an error. -/
theorem C9_reset_idempotent (storage : List (String × List Msg)) (cid : String) :
    (reset_conversation storage cid).2.statusCode = 200 ∧
    (reset_conversation storage cid).2.message =
      (if hasKey storage cid then "Conversation reset for customer " ++ cid
       else "No active conversation found for customer " ++ cid) ∧
    hasKey (reset_conversation storage cid).1 cid = false ∧
    (reset_conversation (reset_conversation storage cid).1 cid).2.statusCode = 200 ∧
    (reset_conversation (reset_conversation storage cid).1 cid).2.message =
      "No active conversation found for customer " ++ cid ∧
    (reset_conversation (reset_conversation storage cid).1 cid).1 =
      (reset_conversation storage cid).1 := by
  by_cases h : hasKey storage cid
  · simp [reset_conversation, h, hasKey_filter_self]
  · simp [reset_conversation, h]
